import Mathlib

/-
  Verification of the discrakt poll/parse/publish loop.

  Shallow embedding of src/discrakt.py (the canonical, most recent revision of
  the script; the repository also contains the near-duplicate earlier revisions
  src/discrackt.py and src/disakt.py).  Python exceptions are made explicit as
  an `Except PyError` result; an `Except.error` escaping a function models an
  uncaught Python exception (which, escaping the loop body, kills the loop).
  Timestamps are rationals (epoch seconds); the dateutil parser and the stdlib
  json decoder are external collaborators and enter as function parameters.
-/

/-- Python exception kinds that the embedded code can raise or catch. -/
inductive PyError
  | keyError (k : String)
  | typeError
  | valueError
  | zeroDivisionError
  | unboundLocalError
  | connectionResetError
deriving DecidableEq, Repr

/-- Decoded JSON values as produced by json.loads.  Arrays and float literals
never reach any subscript the script performs, so they are omitted. -/
inductive JSON
  | null
  | bool (b : Bool)
  | num (n : Int)
  | str (s : String)
  | obj (fields : List (String × JSON))

/-- Python subscript data[k]: KeyError when the key is absent from a dict,
TypeError when the value is not a dict (None, bool, number, string). -/
def JSON.getItem : JSON → String → Except PyError JSON
  | .obj fs, k =>
    match fs.lookup k with
    | some v => .ok v
    | none => .error (.keyError k)
  | _, _ => .error .typeError

/-- Rendering of a decoded value by str(), as used by str.format.  The dict
rendering is not modelled faithfully (no claim depends on it). -/
def JSON.fmt : JSON → String
  | .null => "None"
  | .bool true => "True"
  | .bool false => "False"
  | .num n => toString n
  | .str s => s
  | .obj _ => "dict"

/-- Python equality test between a decoded value and a string literal, as in
the expression data[two-quotes-type] == a-string: true exactly for the equal
string, false for every non-string value. -/
def JSON.isStrEq : JSON → String → Bool
  | .str s, t => s == t
  | _, _ => false

/-- Log levels of the logging calls in the script. -/
inductive LogLevel
  | debug
  | info
  | warning
  | error
deriving DecidableEq, Repr

/-- One emitted log line. -/
structure LogEntry where
  level : LogLevel
  msg : String
deriving DecidableEq, Repr

/-- Python division: raises ZeroDivisionError on a zero divisor, otherwise
exact division (the float rounding of the source is not modelled; no claim
depends on it). -/
def pydiv (a b : Rat) : Except PyError Rat :=
  if b = 0 then .error .zeroDivisionError else .ok (a / b)

/-- The watch-percentage computation of discrakt.py lines 94 to 96:
(time.time() - startTimestamp) / (endTimestamp - startTimestamp), with
Python division semantics. -/
def watchPercentage (now startTimestamp endTimestamp : Rat) : Except PyError Rat :=
  pydiv (now - startTimestamp) (endTimestamp - startTimestamp)

/-- Stated from the specification text, for comparison with the source: the
clamp to the unit interval that the spec asserts for the progress
percentage. -/
def clamp01 (q : Rat) : Rat := max 0 (min 1 q)

/-- Rendering of the percentage for the log line.  The two-decimal percent
formatting of the source is not modelled digit-for-digit (no claim depends
on the rendered digits). -/
def pctFmt (q : Rat) : String := toString (q * 100) ++ "%"

/-- dp.parse applied to a subscript result: dateutil accepts a string; any
non-string argument is a TypeError.  The dateutil parser itself is an
external collaborator passed in as dparse. -/
def dparseVal (dparse : String → Except PyError Rat) : JSON → Except PyError Rat
  | .str s => dparse s
  | _ => .error .typeError

/-- The keyword arguments of RPC.update in discrakt.py lines 120 to 127.
state and details are the decoded values passed through unchanged (the movie
year is passed as the number it decoded to). -/
structure PresenceUpdate where
  state : JSON
  details : JSON
  start : Rat
  «end» : Rat
  large_image : String
  small_image : String

/-- Observable effects of one parseData call that returns normally. -/
structure ParseEffects where
  logs : List LogEntry
  update : Option PresenceUpdate
  reconnected : Bool

/-- The trailing try RPC.update except-anything connect_discord() block of
parseData: on transport success the update is published; on failure the
exception is swallowed and the blocking reconnect procedure runs. -/
def finishUpdate (updateOk : Bool) (logs : List LogEntry) (newState newDetails : JSON)
    (startTimestamp endTimestamp : Rat) (media : String) : ParseEffects :=
  if updateOk then
    { logs := logs
      update := some { state := newState, details := newDetails, start := startTimestamp,
                       «end» := endTimestamp, large_image := media, small_image := "trakt" }
      reconnected := false }
  else
    { logs := logs, update := none, reconnected := true }

/-- The message of the warning logged for an unrecognized media type. -/
def mediaErrorMsg : String := "Media Error : What are you even watching?"

/-- parseData of discrakt.py lines 89 to 129.  The timestamps and the watch
percentage are computed before the type dispatch, exactly as in the source;
a KeyError, TypeError or ZeroDivisionError raised there escapes the function
(nothing in the source catches it).  In the unrecognized-type branch the
source logs a warning and then still attempts RPC.update with the local
variables newState, newDetails and media unbound; that UnboundLocalError is
raised inside the try block, caught by the except-anything handler, and
connect_discord() runs: so no update is published, nothing is cleared, and
no exception escapes, regardless of transport health. -/
def parseData (dparse : String → Except PyError Rat) (now : Rat) (updateOk : Bool)
    (data : JSON) : Except PyError ParseEffects := do
  let saV ← data.getItem "started_at"
  let startTimestamp ← dparseVal dparse saV
  let eaV ← data.getItem "expires_at"
  let endTimestamp ← dparseVal dparse eaV
  let watchPct ← watchPercentage now startTimestamp endTimestamp
  let tyV ← data.getItem "type"
  if tyV.isStrEq "episode" then do
    let showObj ← data.getItem "show"
    let newDetails ← showObj.getItem "title"
    let epObj ← data.getItem "episode"
    let seasonV ← epObj.getItem "season"
    let numberV ← epObj.getItem "number"
    let epTitleV ← epObj.getItem "title"
    let newState := JSON.str ("S" ++ seasonV.fmt ++ "E" ++ numberV.fmt ++ " - " ++ epTitleV.fmt)
    let line : LogEntry := ⟨.info,
      "TV Show : " ++ newDetails.fmt ++ " > " ++ newState.fmt ++ " [" ++ pctFmt watchPct ++ "]"⟩
    pure (finishUpdate updateOk [line] newState newDetails startTimestamp endTimestamp "tv")
  else if tyV.isStrEq "movie" then do
    let movieObj ← data.getItem "movie"
    let newDetails ← movieObj.getItem "title"
    let newState ← movieObj.getItem "year"
    let line : LogEntry := ⟨.info,
      "Movie : " ++ newDetails.fmt ++ " (" ++ newState.fmt ++ ") [" ++ pctFmt watchPct ++ "]"⟩
    pure (finishUpdate updateOk [line] newState newDetails startTimestamp endTimestamp "movie")
  else
    pure { logs := [⟨.warning, mediaErrorMsg⟩], update := none, reconnected := true }

/-- is_json of discrakt.py lines 81 to 86: json.loads under a try that
catches ValueError.  json.loads raises only ValueError subclasses, so the
function is total: true exactly when decoding succeeds. -/
def is_json (loads : String → Except PyError JSON) (myjson : String) : Bool :=
  match loads myjson with
  | .ok _ => true
  | .error _ => false

/-- Outcome of the guarded urlopen block at the top of each cycle. -/
inductive FetchResult
  | ok (body : String)
  | fail

/-- Observable effects of one loop iteration that returns normally. -/
structure IterEffects where
  logs : List LogEntry
  cleared : Bool
  update : Option PresenceUpdate
  reconnected : Bool

/-- Promotion of parseData effects to iteration effects (the parse branch of
the loop performs no clear). -/
def parseToIter (e : ParseEffects) : IterEffects :=
  { logs := e.logs, cleared := false, update := e.update, reconnected := e.reconnected }

/-- One iteration of the while-True loop of discrakt.py lines 133 to 153,
after the sleep.  A fetch failure is caught, logged and the cycle skipped.
A body that is not JSON takes the clear path (debug log; a clear failure is
caught and triggers reconnect).  Otherwise the decoded body goes to
parseData, whose uncaught exceptions escape the loop body (the source wraps
nothing around the parseData call). -/
def loopIter (loads : String → Except PyError JSON) (dparse : String → Except PyError Rat)
    (now : Rat) (updateOk clearOk : Bool) : FetchResult → Except PyError IterEffects
  | .fail =>
    .ok { logs := [⟨.warning, "Trakt Connection Failure"⟩], cleared := false,
          update := none, reconnected := false }
  | .ok body =>
    if is_json loads body then
      match loads body with
      | .ok data => (parseData dparse now updateOk data).map parseToIter
      | .error e => .error e
    else
      .ok { logs := [⟨.debug, "Nothing is being played"⟩], cleared := clearOk,
            update := none, reconnected := !clearOk }

/-- Connection-lifecycle states of the presence channel. -/
inductive ConnState
  | Disconnected
  | Connecting
  | Connected
deriving DecidableEq, Repr

/-- Modelled from the spec: the pypresence handshake RPC.connect is not under
src/.  Per the spec, calling connect while already Connected is a no-op
returning success; from any other state the attempt succeeds exactly when
the presence service is reachable (the up argument). -/
def rpcConnect (st : ConnState) (up : Bool) : Option ConnState :=
  match st with
  | .Connected => some .Connected
  | _ => if up then some .Connected else none

/-- connect_discord of discrakt.py lines 46 to 54: loop RPC.connect until it
succeeds, sleeping 15 seconds after each failure.  The list gives the
reachability of the service at each successive attempt; the result carries
the final state and the number of sleeps taken, and is none when every
listed attempt failed (the real loop would still be retrying). -/
def connect_discord : ConnState → List Bool → Option (ConnState × Nat)
  | _, [] => none
  | st, up :: rest =>
    match rpcConnect st up with
    | some st2 => some (st2, 0)
    | none => (connect_discord .Disconnected rest).map (fun p => (p.1, p.2 + 1))

/-- Outcome of one guarded RPC operation (update or clear) as performed by the
script: the try RPC.update except-anything connect_discord() block of
parseData and the identical block around RPC.clear in the loop. -/
structure OpOutcome where
  published : Bool
  reconnectInvoked : Bool
  stateSeq : List ConnState
  final : Option ConnState

/-- The guarded RPC operation, starting from a Connected channel.  On
transport success the operation lands and the channel stays Connected.  On
transport failure the connection is down (Disconnected), the exception is
swallowed by the except-anything handler, and connect_discord runs before
the block returns; the Except layer records that no exception ever escapes
to the enclosing loop. -/
def rpcOpRecover (opOk : Bool) (avails : List Bool) : Except PyError OpOutcome :=
  if opOk then
    .ok { published := true, reconnectInvoked := false, stateSeq := [.Connected],
          final := some .Connected }
  else
    match connect_discord .Disconnected avails with
    | some (st2, _) =>
      .ok { published := false, reconnectInvoked := true,
            stateSeq := [.Connected, .Disconnected, st2], final := some st2 }
    | none =>
      .ok { published := false, reconnectInvoked := true,
            stateSeq := [.Connected, .Disconnected], final := none }

/-- Boolean success test for an embedded Python computation. -/
def exceptOk {α β : Type} : Except α β → Bool
  | .ok _ => true
  | .error _ => false

/-- Outcome of the RPC.close call inside the shutdown handler. -/
inductive CloseOutcome
  | ok
  | raises (e : PyError)

/-- Modelled from the spec: the pypresence RPC.close call is not under src/.
Per the spec, close is invoked during graceful shutdown on a possibly
already-broken connection, and the failure such a connection produces is the
connection-reset error that the handler anticipates. -/
def brokenConnClose : CloseOutcome := .raises .connectionResetError

/-- Python round, which rounds halves to even. -/
def pyRound (q : Rat) : Int :=
  if q - ⌊q⌋ < 1 / 2 then ⌊q⌋
  else if 1 / 2 < q - ⌊q⌋ then ⌊q⌋ + 1
  else if ⌊q⌋ % 2 = 0 then ⌊q⌋ else ⌊q⌋ + 1

/-- The uptime message of the handler, discrakt.py lines 58 to 65. -/
def timeOpen (runtime : Nat) : String :=
  if runtime < 60 then toString runtime ++ " seconds."
  else if (runtime : Rat) / 60 < 60 then toString (pyRound ((runtime : Rat) / 60)) ++ " minutes."
  else toString (pyRound ((runtime : Rat) / 3600)) ++ " hours."

/-- signal_handler of discrakt.py lines 57 to 75: log the uptime, call
RPC.close under a handler that swallows exactly ConnectionResetError, then
raise SystemExit with no argument, which terminates the process with exit
status 0.  The result carries the exit status and the logged message; an
error result is an exception other than SystemExit escaping the handler. -/
def signal_handler (runtime : Nat) (close : CloseOutcome) : Except PyError (Nat × String) :=
  let msg := "Ctrl+C pressed!! Exiting after " ++ timeOpen runtime
  match close with
  | .ok => .ok (0, msg)
  | .raises e => if e = .connectionResetError then .ok (0, msg) else .error e

/-- A dateutil stand-in mapping every string to epoch second 0, for concrete
evaluations. -/
def dparse0 : String → Except PyError Rat := fun _ => .ok 0

/-- A dateutil stand-in for the two timestamps of the concrete scenario
payloads (one hour apart, as in the spec scenario). -/
def dparseW : String → Except PyError Rat := fun s =>
  if s = "2024-01-01T00:00:00Z" then .ok 1704067200
  else if s = "2024-01-01T01:00:00Z" then .ok 1704070800
  else .error .valueError

/-- A decoded payload with the episode discriminant but every other required
field missing. -/
def p1 : JSON := .obj [("type", .str "episode")]

/-- The decode of the byte string carrying p1. -/
def loads1 : String → Except PyError JSON := fun _ => .ok p1

/-- A decoded movie payload whose two timestamp strings are identical, so
both parse to the same epoch second. -/
def p2 : JSON := .obj [
  ("type", .str "movie"),
  ("movie", .obj [("title", .str "M"), ("year", .num 2020)]),
  ("started_at", .str "2024-01-01T00:00:00Z"),
  ("expires_at", .str "2024-01-01T00:00:00Z")]

/-- The decode of the byte string carrying p2. -/
def loads2 : String → Except PyError JSON := fun _ => .ok p2

/-- The well-formed episode payload of the spec scenario. -/
def epData : JSON := .obj [
  ("type", .str "episode"),
  ("show", .obj [("title", .str "X")]),
  ("episode", .obj [("season", .num 1), ("number", .num 2), ("title", .str "Pilot")]),
  ("started_at", .str "2024-01-01T00:00:00Z"),
  ("expires_at", .str "2024-01-01T01:00:00Z")]

/-- A well-formed movie payload. -/
def mvData : JSON := .obj [
  ("type", .str "movie"),
  ("movie", .obj [("title", .str "M"), ("year", .num 2020)]),
  ("started_at", .str "2024-01-01T00:00:00Z"),
  ("expires_at", .str "2024-01-01T01:00:00Z")]

/-- A payload with an unrecognized discriminant and parseable, distinct
timestamps. -/
def unkData : JSON := .obj [
  ("type", .str "music"),
  ("started_at", .str "2024-01-01T00:00:00Z"),
  ("expires_at", .str "2024-01-01T01:00:00Z")]

/-- The decode of the byte string carrying unkData. -/
def loadsU : String → Except PyError JSON := fun _ => .ok unkData

/-- A decoder stand-in for a byte payload that is empty or malformed: the
decode raises. -/
def loadsFail : String → Except PyError JSON := fun _ => .error .valueError

/-- A decoder stand-in for the byte payload consisting of the JSON literal
null: a successful decode to a non-object value. -/
def loadsNull : String → Except PyError JSON := fun _ => .ok .null

theorem exceptBind_ok {α β : Type} (a : α) (f : α → Except PyError β) :
    (Except.ok a : Except PyError α) >>= f = f a := rfl

theorem exceptBind_err {α β : Type} (e : PyError) (f : α → Except PyError β) :
    (Except.error e : Except PyError α) >>= f = Except.error e := rfl

theorem exceptMap_ok {α β : Type} (f : α → β) (a : α) :
    (Except.ok a : Except PyError α).map f = Except.ok (f a) := rfl

theorem exceptMap_err {α β : Type} (f : α → β) (e : PyError) :
    (Except.error e : Except PyError α).map f = Except.error e := rfl

/-- C6: a fetch failure is caught and logged, no presence operation (neither
publish nor clear nor reconnect) happens in that cycle, and the iteration
ends normally, proceeding to the next sleep. -/
theorem loopIter_network_failure_skips :
    ∀ (loads : String → Except PyError JSON) (dparse : String → Except PyError Rat)
      (now : Rat) (updateOk clearOk : Bool),
      loopIter loads dparse now updateOk clearOk .fail =
        .ok { logs := [⟨.warning, "Trakt Connection Failure"⟩], cleared := false,
              update := none, reconnected := false } :=
  fun _ _ _ _ _ => rfl

/-- C4: a byte payload that fails to decode (empty or malformed JSON) takes
the idle path: the debug line is logged, no update is published, the
presence is cleared when the clear transport works (and a clear failure only
triggers reconnect), and the iteration never ends in an error. -/
theorem loopIter_undecodable_idle :
    ∀ (loads : String → Except PyError JSON) (dparse : String → Except PyError Rat)
      (now : Rat) (updateOk clearOk : Bool) (body : String) (e : PyError),
      loads body = .error e →
      loopIter loads dparse now updateOk clearOk (.ok body) =
        .ok { logs := [⟨.debug, "Nothing is being played"⟩], cleared := clearOk,
              update := none, reconnected := !clearOk } := by
  intro loads dparse now uOk cOk body e h
  simp [loopIter, is_json, h]

theorem loopIter_undecodable_idle_witness :
    loopIter loadsFail dparse0 0 true true (.ok "") =
      .ok { logs := [⟨.debug, "Nothing is being played"⟩], cleared := true,
            update := none, reconnected := false } :=
  loopIter_undecodable_idle loadsFail dparse0 0 true true "" .valueError rfl

/-- C10: every byte payload that decodes, to whatever value (also null, a
bool or a bare number), makes is_json true and is routed to parseData, not
to the idle/clear path. -/
theorem is_json_routes_decoded_payloads :
    ∀ (loads : String → Except PyError JSON) (dparse : String → Except PyError Rat)
      (now : Rat) (updateOk clearOk : Bool) (body : String) (v : JSON),
      loads body = .ok v →
      is_json loads body = true ∧
      loopIter loads dparse now updateOk clearOk (.ok body) =
        (parseData dparse now updateOk v).map parseToIter := by
  intro loads dparse now uOk cOk body v h
  exact ⟨by simp [is_json, h], by simp [loopIter, is_json, h]⟩

theorem is_json_routes_decoded_payloads_witness :
    is_json loadsNull "null" = true ∧
    loopIter loadsNull dparse0 0 true true (.ok "null") =
      (parseData dparse0 0 true .null).map parseToIter :=
  is_json_routes_decoded_payloads loadsNull dparse0 0 true true "null" .null rfl

/-- C8: calling the connect procedure while the channel is already Connected
returns success immediately, with zero retry sleeps, leaving the state
Connected, whatever the service availability. -/
theorem connect_discord_idempotent :
    ∀ (up : Bool) (rest : List Bool),
      connect_discord .Connected (up :: rest) = some (.Connected, 0) :=
  fun _ _ => rfl

/-- C1 counterexample: the decoded payload p1 carries the episode
discriminant but lacks the started_at field.  parseData raises KeyError
before any warning is logged, the loop body does not catch it, and the
iteration ends in the error: the loop crashes instead of treating the
payload as Idle. -/
theorem parseData_missing_fields_counterexample :
    parseData dparse0 0 true p1 = .error (.keyError "started_at") ∧
    loopIter loads1 dparse0 0 true true (.ok "payload") = .error (.keyError "started_at") :=
  ⟨rfl, rfl⟩

/-- C2 counterexample: in the decoded payload p2 both timestamp strings parse
to the same epoch second.  The watch-percentage division raises
ZeroDivisionError, nothing catches it, and the loop iteration ends in the
error: there is no division-by-zero guard and no ParseError result. -/
theorem equal_timestamps_counterexample :
    parseData dparseW 0 true p2 = .error .zeroDivisionError ∧
    loopIter loads2 dparseW 0 true true (.ok "payload") = .error .zeroDivisionError := by
  have hp : parseData dparseW 0 true p2 = .error .zeroDivisionError := by
    simp [parseData, p2, JSON.getItem, List.lookup, dparseVal, dparseW,
      watchPercentage, pydiv, exceptBind_ok, exceptBind_err]
  exact ⟨hp, by simp [loopIter, is_json, loads2, hp, exceptMap_err]⟩

/-- C3 counterexample: with startedAt 0, expiresAt 100 and now 200 the code
computes 2, while the clamped value the claim asserts is 1: the computed
percentage is not clamped to the unit interval. -/
theorem watchPercentage_unclamped_counterexample :
    watchPercentage 200 0 100 = .ok 2 ∧ clamp01 2 = 1 ∧ (2 : Rat) ≠ 1 := by
  refine ⟨by norm_num [watchPercentage, pydiv], by norm_num [clamp01], by norm_num⟩

/-- C3 amended: for startedAt strictly before expiresAt the computed
percentage is the raw ratio (now - startedAt) / (expiresAt - startedAt)
with no clamping; it is monotonically non-decreasing as now advances
(everywhere, not only between the endpoints); and for now between the
endpoints it already lies in the unit interval, so there it coincides with
the clamped value the spec describes. -/
theorem watchPercentage_monotone_unclamped :
    ∀ (s e n₁ n₂ : Rat), s < e →
      watchPercentage n₁ s e = .ok ((n₁ - s) / (e - s)) ∧
      (n₁ ≤ n₂ → (n₁ - s) / (e - s) ≤ (n₂ - s) / (e - s)) ∧
      (s ≤ n₁ → n₁ ≤ e → (n₁ - s) / (e - s) = clamp01 ((n₁ - s) / (e - s))) := by
  intro s e n₁ n₂ hlt
  have hpos : (0 : Rat) < e - s := by linarith
  have hne : e - s ≠ 0 := ne_of_gt hpos
  refine ⟨by simp [watchPercentage, pydiv, hne], ?_, ?_⟩
  · intro h
    rw [div_le_div_iff₀ hpos hpos]
    nlinarith
  · intro h1 h2
    have h0 : (0 : Rat) ≤ (n₁ - s) / (e - s) := div_nonneg (by linarith) (le_of_lt hpos)
    have hle1 : (n₁ - s) / (e - s) ≤ 1 := by
      rw [div_le_one hpos]; linarith
    rw [clamp01, min_eq_right hle1, max_eq_right h0]

theorem watchPercentage_monotone_unclamped_witness :
    watchPercentage 25 0 100 = .ok ((25 - 0) / (100 - 0) : Rat) ∧
    ((25 - 0 : Rat) / (100 - 0) ≤ (50 - 0) / (100 - 0)) ∧
    ((25 - 0 : Rat) / (100 - 0) = clamp01 ((25 - 0) / (100 - 0))) := by
  have h := watchPercentage_monotone_unclamped 0 100 25 50 (by norm_num)
  exact ⟨h.1, h.2.1 (by norm_num), h.2.2 (by norm_num) (by norm_num)⟩

/-- C2 amended: when the two timestamp fields parse to the same epoch second,
the watch-percentage division raises ZeroDivisionError; the exception
escapes parseData (there is no guard and no ParseError value) and escapes
the loop body, so the iteration ends in the error: the loop crashes, and no
NaN or Inf value is ever produced or propagated. -/
theorem parseData_equal_timestamps_crash :
    ∀ (loads : String → Except PyError JSON) (dparse : String → Except PyError Rat)
      (now sTS : Rat) (updateOk clearOk : Bool) (body : String) (data saV eaV : JSON),
      loads body = .ok data →
      JSON.getItem data "started_at" = .ok saV →
      dparseVal dparse saV = .ok sTS →
      JSON.getItem data "expires_at" = .ok eaV →
      dparseVal dparse eaV = .ok sTS →
      parseData dparse now updateOk data = .error .zeroDivisionError ∧
      loopIter loads dparse now updateOk clearOk (.ok body) = .error .zeroDivisionError := by
  intro loads dparse now sTS uOk cOk body data saV eaV hl h1 h2 h3 h4
  have hp : parseData dparse now uOk data = .error .zeroDivisionError := by
    simp [parseData, h1, h2, h3, h4, watchPercentage, pydiv, exceptBind_ok, exceptBind_err]
  exact ⟨hp, by simp [loopIter, is_json, hl, hp, exceptMap_err]⟩

theorem parseData_equal_timestamps_crash_witness :
    parseData dparseW 0 true p2 = .error .zeroDivisionError ∧
    loopIter loads2 dparseW 0 true true (.ok "payload") = .error .zeroDivisionError :=
  parseData_equal_timestamps_crash loads2 dparseW 0 1704067200 true true "payload" p2
    (.str "2024-01-01T00:00:00Z") (.str "2024-01-01T00:00:00Z")
    rfl rfl rfl rfl rfl

/-- C1 amended: a decoded payload whose discriminant is neither episode nor
movie gets the behavior the claim describes only when its started_at and
expires_at fields are present and parse to distinct timestamps: the warning
is logged, no presence update is published, and the iteration ends normally
(the unbound-variable failure of the attempted update is swallowed and
triggers a reconnect; the presence is not cleared).  A payload missing a
required field instead raises an uncaught exception and the loop crashes,
as the counterexample shows. -/
theorem parseData_unknown_type_warns :
    ∀ (loads : String → Except PyError JSON) (dparse : String → Except PyError Rat)
      (now : Rat) (sTS eTS : Rat) (updateOk clearOk : Bool) (body : String)
      (data saV eaV tyV : JSON),
      loads body = .ok data →
      JSON.getItem data "started_at" = .ok saV →
      dparseVal dparse saV = .ok sTS →
      JSON.getItem data "expires_at" = .ok eaV →
      dparseVal dparse eaV = .ok eTS →
      eTS ≠ sTS →
      JSON.getItem data "type" = .ok tyV →
      tyV.isStrEq "episode" = false →
      tyV.isStrEq "movie" = false →
      parseData dparse now updateOk data =
        .ok { logs := [⟨.warning, mediaErrorMsg⟩], update := none, reconnected := true } ∧
      loopIter loads dparse now updateOk clearOk (.ok body) =
        .ok { logs := [⟨.warning, mediaErrorMsg⟩], cleared := false, update := none,
              reconnected := true } := by
  intro loads dparse now sTS eTS uOk cOk body data saV eaV tyV hl h1 h2 h3 h4 hne h5 h6 h7
  have hsub : eTS - sTS ≠ 0 := sub_ne_zero_of_ne hne
  have hp : parseData dparse now uOk data =
      .ok { logs := [⟨.warning, mediaErrorMsg⟩], update := none, reconnected := true } := by
    simp [parseData, h1, h2, h3, h4, h5, h6, h7, watchPercentage, pydiv, hsub,
      exceptBind_ok]
  exact ⟨hp, by simp [loopIter, is_json, hl, hp, exceptMap_ok, parseToIter]⟩

theorem parseData_unknown_type_warns_witness :
    parseData dparseW 0 true unkData =
      .ok { logs := [⟨.warning, mediaErrorMsg⟩], update := none, reconnected := true } ∧
    loopIter loadsU dparseW 0 true true (.ok "payload") =
      .ok { logs := [⟨.warning, mediaErrorMsg⟩], cleared := false, update := none,
            reconnected := true } :=
  parseData_unknown_type_warns loadsU dparseW 0 1704067200 1704070800 true true "payload"
    unkData (.str "2024-01-01T00:00:00Z") (.str "2024-01-01T01:00:00Z") (.str "music")
    rfl rfl rfl rfl rfl (by norm_num) rfl rfl rfl

/-- C5: for a well-formed episode payload (all required fields present, both
timestamps parseable and distinct, transport healthy) the published state
field is the string S{season}E{number} - {title} and the large image key is
tv; for a well-formed movie payload the published state field is the year
field of the movie object, passed through exactly as decoded, with large
image key movie. -/
theorem parseData_subtitle_by_kind :
    (∀ (dparse : String → Except PyError Rat) (now sTS eTS : Rat)
       (data saV eaV tyV showObj epObj detailsV seasonV numberV epTitleV : JSON),
       JSON.getItem data "started_at" = .ok saV →
       dparseVal dparse saV = .ok sTS →
       JSON.getItem data "expires_at" = .ok eaV →
       dparseVal dparse eaV = .ok eTS →
       eTS ≠ sTS →
       JSON.getItem data "type" = .ok tyV →
       tyV.isStrEq "episode" = true →
       JSON.getItem data "show" = .ok showObj →
       JSON.getItem showObj "title" = .ok detailsV →
       JSON.getItem data "episode" = .ok epObj →
       JSON.getItem epObj "season" = .ok seasonV →
       JSON.getItem epObj "number" = .ok numberV →
       JSON.getItem epObj "title" = .ok epTitleV →
       (parseData dparse now true data).map ParseEffects.update =
         .ok (some { state := .str ("S" ++ seasonV.fmt ++ "E" ++ numberV.fmt ++ " - " ++
                       epTitleV.fmt),
                     details := detailsV, start := sTS, «end» := eTS,
                     large_image := "tv", small_image := "trakt" })) ∧
    (∀ (dparse : String → Except PyError Rat) (now sTS eTS : Rat)
       (data saV eaV tyV movieObj detailsV yearV : JSON),
       JSON.getItem data "started_at" = .ok saV →
       dparseVal dparse saV = .ok sTS →
       JSON.getItem data "expires_at" = .ok eaV →
       dparseVal dparse eaV = .ok eTS →
       eTS ≠ sTS →
       JSON.getItem data "type" = .ok tyV →
       tyV.isStrEq "episode" = false →
       tyV.isStrEq "movie" = true →
       JSON.getItem data "movie" = .ok movieObj →
       JSON.getItem movieObj "title" = .ok detailsV →
       JSON.getItem movieObj "year" = .ok yearV →
       (parseData dparse now true data).map ParseEffects.update =
         .ok (some { state := yearV, details := detailsV, start := sTS, «end» := eTS,
                     large_image := "movie", small_image := "trakt" })) := by
  constructor
  · intro dparse now sTS eTS data saV eaV tyV showObj epObj detailsV seasonV numberV epTitleV
      h1 h2 h3 h4 hne h5 h6 h7 h8 h9 h10 h11 h12
    have hsub : eTS - sTS ≠ 0 := sub_ne_zero_of_ne hne
    simp [parseData, h1, h2, h3, h4, h5, h6, h7, h8, h9, h10, h11, h12,
      watchPercentage, pydiv, hsub, finishUpdate, exceptBind_ok, exceptMap_ok]
  · intro dparse now sTS eTS data saV eaV tyV movieObj detailsV yearV
      h1 h2 h3 h4 hne h5 h6 h7 h8 h9 h10
    have hsub : eTS - sTS ≠ 0 := sub_ne_zero_of_ne hne
    simp [parseData, h1, h2, h3, h4, h5, h6, h7, h8, h9, h10,
      watchPercentage, pydiv, hsub, finishUpdate, exceptBind_ok, exceptMap_ok]

theorem parseData_subtitle_by_kind_witness :
    (parseData dparseW 1704069000 true epData).map ParseEffects.update =
      .ok (some { state := .str "S1E2 - Pilot", details := .str "X", start := 1704067200,
                  «end» := 1704070800, large_image := "tv", small_image := "trakt" }) ∧
    (parseData dparseW 1704069000 true mvData).map ParseEffects.update =
      .ok (some { state := .num 2020, details := .str "M", start := 1704067200,
                  «end» := 1704070800, large_image := "movie", small_image := "trakt" }) :=
  ⟨parseData_subtitle_by_kind.1 dparseW 1704069000 1704067200 1704070800 epData
      (.str "2024-01-01T00:00:00Z") (.str "2024-01-01T01:00:00Z") (.str "episode")
      (.obj [("title", .str "X")])
      (.obj [("season", .num 1), ("number", .num 2), ("title", .str "Pilot")])
      (.str "X") (.num 1) (.num 2) (.str "Pilot")
      rfl rfl rfl rfl (by norm_num) rfl rfl rfl rfl rfl rfl rfl rfl,
   parseData_subtitle_by_kind.2 dparseW 1704069000 1704067200 1704070800 mvData
      (.str "2024-01-01T00:00:00Z") (.str "2024-01-01T01:00:00Z") (.str "movie")
      (.obj [("title", .str "M"), ("year", .num 2020)]) (.str "M") (.num 2020)
      rfl rfl rfl rfl (by norm_num) rfl rfl rfl rfl rfl rfl⟩

/-- C7: a transport-level failure of a guarded RPC operation (update or
clear) starting from a Connected channel publishes nothing, forces the
connection through Connected then Disconnected, and re-invokes the blocking
connect procedure before the block returns; when the service becomes
reachable during the retries the reconnect ends Connected; and for every
transport outcome the block returns normally, never surfacing an exception
to the enclosing loop. -/
theorem rpcOpRecover_reconnects :
    (∀ avails : List Bool,
       (rpcOpRecover false avails).map OpOutcome.published = .ok false ∧
       (rpcOpRecover false avails).map OpOutcome.reconnectInvoked = .ok true ∧
       (rpcOpRecover false avails).map (fun o => o.stateSeq.take 2) =
         .ok [.Connected, .Disconnected]) ∧
    (∀ avails : List Bool, true ∈ avails →
       (connect_discord .Disconnected avails).map Prod.fst = some ConnState.Connected) ∧
    (∀ (opOk : Bool) (avails : List Bool), exceptOk (rpcOpRecover opOk avails) = true) := by
  refine ⟨?_, ?_, ?_⟩
  · intro avails
    cases h : connect_discord .Disconnected avails with
    | none => simp [rpcOpRecover, h, exceptMap_ok]
    | some p => simp [rpcOpRecover, h, exceptMap_ok]
  · intro avails hmem
    induction avails with
    | nil => cases hmem
    | cons a rest ih =>
      cases a with
      | true => simp [connect_discord, rpcConnect]
      | false =>
        have hmem2 : true ∈ rest := by simpa using hmem
        have ih2 := ih hmem2
        cases h : connect_discord .Disconnected rest with
        | none => rw [h] at ih2; simp at ih2
        | some p =>
          rw [h] at ih2
          simp only [Option.map_some', Option.some.injEq] at ih2
          simp [connect_discord, rpcConnect, h, ih2]
  · intro opOk avails
    cases opOk with
    | true => simp [rpcOpRecover, exceptOk]
    | false =>
      cases h : connect_discord .Disconnected avails with
      | none => simp [rpcOpRecover, h, exceptOk]
      | some p => simp [rpcOpRecover, h, exceptOk]

theorem rpcOpRecover_reconnects_witness :
    ((rpcOpRecover false [false, true]).map OpOutcome.published = .ok false ∧
     (rpcOpRecover false [false, true]).map OpOutcome.reconnectInvoked = .ok true ∧
     (rpcOpRecover false [false, true]).map (fun o => o.stateSeq.take 2) =
       .ok [.Connected, .Disconnected]) ∧
    (connect_discord .Disconnected [false, true]).map Prod.fst = some ConnState.Connected :=
  ⟨rpcOpRecover_reconnects.1 [false, true],
   rpcOpRecover_reconnects.2.1 [false, true] (by simp)⟩

/-- C9: on an interrupt, for both the healthy-connection close outcome and
the outcome an already-broken connection produces, the handler swallows the
close error, logs the uptime message, and terminates the process with exit
status 0, raising nothing else. -/
theorem signal_handler_clean_exit :
    ∀ (runtime : Nat) (close : CloseOutcome),
      close = .ok ∨ close = brokenConnClose →
      signal_handler runtime close =
        .ok (0, "Ctrl+C pressed!! Exiting after " ++ timeOpen runtime) := by
  intro runtime close h
  rcases h with h | h <;> subst h <;> simp [signal_handler, brokenConnClose]

theorem signal_handler_clean_exit_witness :
    signal_handler 42 brokenConnClose =
      .ok (0, "Ctrl+C pressed!! Exiting after " ++ timeOpen 42) :=
  signal_handler_clean_exit 42 brokenConnClose (Or.inr rfl)
